import Mathlib

/-
Shallow embedding of the WebSocket message broker in
src/messaging/server/broker.py.

Modelling choices:
* A websocket connection handle is a natural number (`Conn`).
* The two module-level defaultdicts `channels` and `subscribers` are total
  maps from channel name to history list / subscriber list; a defaultdict is
  extensionally a total map whose absent keys hold the empty default, and the
  implicit creation of empty entries is not observable through the frames the
  broker sends.
* A Python `set` of (username, websocket) pairs is modelled as a
  duplicate-free list; `set.add` appends when the element is absent,
  `set.discard` removes it.  Iteration order of a CPython set is arbitrary
  but fixed between mutations; the list order stands for that iteration
  order.
* `await websocket.send(...)` on the handling client's own socket is assumed
  to succeed (its failure is a connection-fatal transport error that ends the
  session, outside the per-frame semantics).  Sends performed by the fan-out
  loop are fallible: the parameter `broken` tells which connections raise on
  send.
* An unhandled Python exception escaping the frame-processing body
  (the ValueError of `_, channel, content = raw_message.split(":", 2)` on a
  short PUBLISH frame, and the RuntimeError CPython raises when
  `set.discard` shrinks `subscribers[channel]` while the fan-out `for` loop
  is iterating it) is modelled by the `crashed` flag of `StepOut`; the state
  and sent frames record the mutations and deliveries made before the raise.
* Python `str.isalnum` is modelled for ASCII text by `Char.isAlphanum`
  (the frames of the protocol and of the spec's examples are ASCII).
-/

namespace Broker

/-- Websocket connection handle. -/
abbrev Conn := Nat

/-- Python `s.split(sep)` for a one-character separator, on the character
list of the string: `splitChar ':' "a:b"` gives `[['a'], ['b']]`, and the
empty string splits to one empty field. -/
def splitChar (sep : Char) : List Char → List (List Char)
  | [] => [[]]
  | c :: rest =>
    match splitChar sep rest with
    | [] => [[]]
    | h :: t => if c = sep then [] :: h :: t else (c :: h) :: t

/-- Joining with a one-character separator, the inverse of `splitChar`. -/
def joinSep (sep : Char) : List (List Char) → List Char
  | [] => []
  | [a] => a
  | a :: b :: t => a ++ sep :: joinSep sep (b :: t)

/-- Python `raw.split(":")`. -/
def pySplit (s : String) : List String :=
  (splitChar ':' s.data).map String.mk

/-- Python `raw.split(":", 2)`: at most three fields, the third keeps any
further `:` characters. -/
def pySplit2 (s : String) : List String :=
  match splitChar ':' s.data with
  | a :: b :: c :: t => [String.mk a, String.mk b, String.mk (joinSep ':' (c :: t))]
  | parts => parts.map String.mk

/-- Character-list core of Python `s.startswith(pre)`. -/
def startsWithChars : List Char → List Char → Bool
  | _, [] => true
  | [], _ :: _ => false
  | c :: cs, p :: ps => c == p && startsWithChars cs ps

/-- Python `s.startswith(pre)`. -/
def pyStartswith (s pre : String) : Bool :=
  startsWithChars s.data pre.data

/-- Python `s.isalnum()` for ASCII text: nonempty and every character
alphanumeric. -/
def pyIsalnum (s : String) : Bool :=
  !s.data.isEmpty && s.data.all Char.isAlphanum

/-- The broker's module-level mutable state: `channels` (per-channel message
history, oldest first, pairs (username, content)) and `subscribers`
(per-channel live subscriber set, pairs (username, websocket)). -/
structure BrokerState where
  channels : String → List (String × String)
  subscribers : String → List (String × Conn)

/-- Point update of a total map. -/
def updMap {α : Type} (f : String → α) (k : String) (v : α) : String → α :=
  fun q => if q = k then v else f q

/-- Python `set.add` on the list model: append when absent. -/
def setAdd (l : List (String × Conn)) (e : String × Conn) : List (String × Conn) :=
  if e ∈ l then l else l ++ [e]

/-- Result of processing one inbound frame: the state after the frame, the
frames successfully sent (target websocket, frame text), and whether an
unhandled exception escaped the frame-processing body. -/
structure StepOut where
  state : BrokerState
  sent : List (Conn × String)
  crashed : Bool

/-- Wire format of a delivered or replayed message. -/
def msgFrame (channel sender content : String) : String :=
  "MSG:" ++ channel ++ ":" ++ sender ++ ":" ++ content

/-- The fan-out loop of the PUBLISH branch:
`for sub_username, subscriber in subscribers[channel]: try: await
subscriber.send(...) except: subscribers[channel].discard(...)`.
Returns (deliveries made, subscriber list after the loop, crashed).
A failed send discards that entry from the set being iterated; CPython's
set iterator then raises RuntimeError ("Set changed size during iteration")
at the next iteration step — also after the last element — so entries after
the first broken one receive nothing and the loop crashes. -/
def fanoutRun (broken : Conn → Bool) (msg : String) :
    List (String × Conn) → List (Conn × String) × List (String × Conn) × Bool
  | [] => ([], [], false)
  | e :: rest =>
    if broken e.2 then ([], rest, true)
    else
      let r := fanoutRun broken msg rest
      ((e.2, msg) :: r.1, e :: r.2.1, r.2.2)

/-- SUBSCRIBE branch of `handle_client`: validate the channel name, add
(username, websocket) to the subscriber set, acknowledge, replay history. -/
def doSubscribe (username : String) (ws : Conn) (st : BrokerState)
    (channel : String) : StepOut :=
  if !pyIsalnum channel then
    ⟨st, [(ws, "ERROR:400:Invalid channel name")], false⟩
  else
    let subs := setAdd (st.subscribers channel) (username, ws)
    ⟨{ st with subscribers := updMap st.subscribers channel subs },
      (ws, "SUB-ACK:" ++ channel) ::
        (st.channels channel).map (fun p => (ws, msgFrame channel p.1 p.2)),
      false⟩

/-- PUBLISH branch of `handle_client`: unpack the frame (ValueError when the
split yields fewer than three parts), require the publisher's identity in the
subscriber set, append to history, fan out. -/
def doPublish (broken : Conn → Bool) (username : String) (ws : Conn)
    (st : BrokerState) (parts : List String) : StepOut :=
  match parts with
  | [_, channel, content] =>
    if !((st.subscribers channel).any (fun e => e.1 == username)) then
      ⟨st, [(ws, "ERROR:401:Not subscribed to channel")], false⟩
    else
      let st1 : BrokerState :=
        { st with channels :=
            updMap st.channels channel (st.channels channel ++ [(username, content)]) }
      let r := fanoutRun broken (msgFrame channel username content) (st1.subscribers channel)
      ⟨{ st1 with subscribers := updMap st1.subscribers channel r.2.1 }, r.1, r.2.2⟩
  | _ => ⟨st, [], true⟩

/-- Search-and-discard of the UNSUBSCRIBE branch: `to_remove` is the first
subscriber-set entry whose identity is the sender's (the `for` loop breaks
at the first match); when found, it is discarded from the set. -/
def pyDiscardFirst (username : String) (l : List (String × Conn)) :
    List (String × Conn) :=
  match l.find? (fun e => e.1 == username) with
  | some e => l.filter (fun x => !(x == e))
  | none => l

/-- UNSUBSCRIBE branch of `handle_client`: remove the first subscriber-set
entry whose identity is the sender's, then always acknowledge. -/
def doUnsubscribe (username : String) (ws : Conn) (st : BrokerState)
    (channel : String) : StepOut :=
  ⟨{ st with
      subscribers :=
        updMap st.subscribers channel (pyDiscardFirst username (st.subscribers channel)) },
    [(ws, "UNSUB-ACK:" ++ channel)], false⟩

/-- Body of the `async for raw_message in websocket` loop of `handle_client`:
dispatch one inbound frame.  Unrecognized frames fall through every branch
and are silently ignored. -/
def handleFrame (broken : Conn → Bool) (username : String) (ws : Conn)
    (st : BrokerState) (raw : String) : StepOut :=
  if pyStartswith raw "SUBSCRIBE:" then
    doSubscribe username ws st ((pySplit raw).getD 1 "")
  else if pyStartswith raw "PUBLISH:" then
    doPublish broken username ws st (pySplit2 raw)
  else if pyStartswith raw "UNSUBSCRIBE:" then
    doUnsubscribe username ws st ((pySplit raw).getD 1 "")
  else
    ⟨st, [], false⟩

/-- The `finally` block of `handle_client`: on disconnect, for every channel
collect the subscriber-set entries whose identity is this connection's
username and discard them all. -/
def deregisterCleanup (username : String) (st : BrokerState) : BrokerState :=
  { st with subscribers :=
      fun ch => (st.subscribers ch).filter (fun e => !(e.1 == username)) }

/-- Empty broker state at process start. -/
def initState : BrokerState :=
  { channels := fun _ => [], subscribers := fun _ => [] }

/-- No connection's send fails. -/
def noFail : Conn → Bool := fun _ => false

/-- Concrete state used to instantiate theorems: channel "c" has two live
subscribers and an empty history. -/
def stW : BrokerState :=
  { channels := fun _ => [],
    subscribers := fun ch => if ch = "c" then [("u", 0), ("v", 1)] else [] }

/-- Concrete state with three subscribers on channel "c", used to exercise
the fan-out loop's failure handling. -/
def stW3 : BrokerState :=
  { channels := fun _ => [],
    subscribers := fun ch => if ch = "c" then [("b", 1), ("a", 2), ("d", 3)] else [] }

/-- Concrete state whose channel "c" holds one history entry and no
subscribers. -/
def stH : BrokerState :=
  { channels := fun ch => if ch = "c" then [("w", "old")] else [],
    subscribers := fun _ => [] }

/-! Basic lemmas about the split/join and startswith models. -/

theorem splitChar_ne_nil (sep : Char) (l : List Char) : splitChar sep l ≠ [] := by
  cases l with
  | nil => simp [splitChar]
  | cons c rest =>
    simp only [splitChar]
    cases h : splitChar sep rest with
    | nil => simp
    | cons hd tl => by_cases hc : c = sep <;> simp [hc]

theorem splitChar_of_not_mem (sep : Char) (l : List Char) (h : sep ∉ l) :
    splitChar sep l = [l] := by
  induction l with
  | nil => rfl
  | cons c rest ih =>
    have hc : ¬c = sep := fun e => h (e ▸ List.mem_cons_self c rest)
    have hrest : sep ∉ rest := fun m => h (List.mem_cons_of_mem _ m)
    simp only [splitChar, ih hrest]
    simp [hc]

theorem splitChar_cons (sep c : Char) (rest : List Char) :
    splitChar sep (c :: rest) =
      match splitChar sep rest with
      | [] => [[]]
      | h :: t => if c = sep then [] :: h :: t else (c :: h) :: t := rfl

theorem splitChar_sep_append (sep : Char) (a b : List Char) (h : sep ∉ a) :
    splitChar sep (a ++ sep :: b) = a :: splitChar sep b := by
  induction a with
  | nil =>
    simp only [List.nil_append, splitChar_cons]
    cases hb : splitChar sep b with
    | nil => exact absurd hb (splitChar_ne_nil sep b)
    | cons hd tl => simp
  | cons c a ih =>
    have hc : ¬c = sep := fun e => h (e ▸ List.mem_cons_self c a)
    have ha : sep ∉ a := fun m => h (List.mem_cons_of_mem _ m)
    rw [List.cons_append, splitChar_cons, ih ha]
    simp [hc]

theorem joinSep_cons_cons (sep c : Char) (h : List Char) (t : List (List Char)) :
    joinSep sep ((c :: h) :: t) = c :: joinSep sep (h :: t) := by
  cases t <;> rfl

theorem joinSep_splitChar (sep : Char) (l : List Char) :
    joinSep sep (splitChar sep l) = l := by
  induction l with
  | nil => rfl
  | cons c rest ih =>
    rw [splitChar_cons]
    cases h : splitChar sep rest with
    | nil => exact absurd h (splitChar_ne_nil sep rest)
    | cons hd tl =>
      rw [h] at ih
      by_cases hc : c = sep
      · subst hc
        simp [joinSep, ih]
      · simp [hc, joinSep_cons_cons, ih]

theorem startsWithChars_nil (s : List Char) : startsWithChars s [] = true := by
  cases s <;> rfl

theorem startsWithChars_append (p s : List Char) :
    startsWithChars (p ++ s) p = true := by
  induction p with
  | nil => exact startsWithChars_nil s
  | cons c cs ih => simp [startsWithChars, ih]

/-! Parsing the three constructed frame shapes. -/

theorem subscribe_frame_data (ch : String) :
    ("SUBSCRIBE:" ++ ch).data = "SUBSCRIBE".data ++ ':' :: ch.data := by
  simp [String.data_append]

theorem unsubscribe_frame_data (ch : String) :
    ("UNSUBSCRIBE:" ++ ch).data = "UNSUBSCRIBE".data ++ ':' :: ch.data := by
  simp [String.data_append]

theorem publish_frame_data (ch m : String) :
    ("PUBLISH:" ++ ch ++ ":" ++ m).data
      = "PUBLISH".data ++ ':' :: (ch.data ++ ':' :: m.data) := by
  simp [String.data_append]

theorem pySplit_subscribe (ch : String) (h : ':' ∉ ch.data) :
    pySplit ("SUBSCRIBE:" ++ ch) = ["SUBSCRIBE", ch] := by
  unfold pySplit
  rw [subscribe_frame_data, splitChar_sep_append _ _ _ (by decide),
    splitChar_of_not_mem _ _ h]
  rfl

theorem pySplit_unsubscribe (ch : String) (h : ':' ∉ ch.data) :
    pySplit ("UNSUBSCRIBE:" ++ ch) = ["UNSUBSCRIBE", ch] := by
  unfold pySplit
  rw [unsubscribe_frame_data, splitChar_sep_append _ _ _ (by decide),
    splitChar_of_not_mem _ _ h]
  rfl

theorem pySplit2_publish (ch m : String) (h : ':' ∉ ch.data) :
    pySplit2 ("PUBLISH:" ++ ch ++ ":" ++ m) = ["PUBLISH", ch, m] := by
  unfold pySplit2
  rw [publish_frame_data, splitChar_sep_append _ _ _ (by decide),
    splitChar_sep_append _ _ _ h]
  cases hm : splitChar ':' m.data with
  | nil => exact absurd hm (splitChar_ne_nil _ _)
  | cons k ks =>
    have hj : joinSep ':' (k :: ks) = m.data := hm ▸ joinSep_splitChar ':' m.data
    simp [hj]

/-! Dispatch: which branch of `handleFrame` a constructed frame reaches. -/

theorem handleFrame_subscribe (broken : Conn → Bool) (u : String) (ws : Conn)
    (st : BrokerState) (ch : String) (h : ':' ∉ ch.data) :
    handleFrame broken u ws st ("SUBSCRIBE:" ++ ch) = doSubscribe u ws st ch := by
  have h1 : pyStartswith ("SUBSCRIBE:" ++ ch) "SUBSCRIBE:" = true := by
    unfold pyStartswith
    rw [String.data_append]
    exact startsWithChars_append _ _
  simp [handleFrame, h1, pySplit_subscribe ch h]

theorem handleFrame_publish (broken : Conn → Bool) (u : String) (ws : Conn)
    (st : BrokerState) (ch m : String) (h : ':' ∉ ch.data) :
    handleFrame broken u ws st ("PUBLISH:" ++ ch ++ ":" ++ m)
      = doPublish broken u ws st ["PUBLISH", ch, m] := by
  have h0 : pyStartswith ("PUBLISH:" ++ ch ++ ":" ++ m) "SUBSCRIBE:" = false := by
    unfold pyStartswith
    rw [publish_frame_data]
    rfl
  have h1 : pyStartswith ("PUBLISH:" ++ ch ++ ":" ++ m) "PUBLISH:" = true := by
    unfold pyStartswith
    rw [publish_frame_data,
      show "PUBLISH".data ++ ':' :: (ch.data ++ ':' :: m.data)
          = "PUBLISH:".data ++ (ch.data ++ ':' :: m.data) from rfl]
    exact startsWithChars_append _ _
  simp [handleFrame, h0, h1, pySplit2_publish ch m h]

theorem handleFrame_unsubscribe (broken : Conn → Bool) (u : String) (ws : Conn)
    (st : BrokerState) (ch : String) (h : ':' ∉ ch.data) :
    handleFrame broken u ws st ("UNSUBSCRIBE:" ++ ch) = doUnsubscribe u ws st ch := by
  have h0 : pyStartswith ("UNSUBSCRIBE:" ++ ch) "SUBSCRIBE:" = false := by
    unfold pyStartswith
    rw [unsubscribe_frame_data]
    rfl
  have h1 : pyStartswith ("UNSUBSCRIBE:" ++ ch) "PUBLISH:" = false := by
    unfold pyStartswith
    rw [unsubscribe_frame_data]
    rfl
  have h2 : pyStartswith ("UNSUBSCRIBE:" ++ ch) "UNSUBSCRIBE:" = true := by
    unfold pyStartswith
    rw [String.data_append]
    exact startsWithChars_append _ _
  simp [handleFrame, h0, h1, h2, pySplit_unsubscribe ch h]

/-! Behaviour of the fan-out loop and small list facts. -/

theorem fanoutRun_noFail (msg : String) (l : List (String × Conn)) :
    fanoutRun noFail msg l = (l.map (fun e => (e.2, msg)), l, false) := by
  induction l with
  | nil => rfl
  | cons e rest ih => simp [fanoutRun, noFail, ih]

theorem fanoutRun_sent_mem (broken : Conn → Bool) (msg : String)
    (l : List (String × Conn)) :
    ∀ p ∈ (fanoutRun broken msg l).1, ∃ e ∈ l, p.1 = e.2 := by
  induction l with
  | nil => simp [fanoutRun]
  | cons e rest ih =>
    intro p hp
    by_cases hb : broken e.2
    · simp [fanoutRun, hb] at hp
    · simp only [fanoutRun, hb, if_false, Bool.false_eq_true, List.mem_cons] at hp
      rcases hp with hp | hp
      · exact ⟨e, List.mem_cons_self e rest, by simp [hp]⟩
      · obtain ⟨e2, he2, hpe⟩ := ih p hp
        exact ⟨e2, List.mem_cons_of_mem _ he2, hpe⟩

theorem count_msg_once (msg : String) (u : String) (c : Conn) :
    ∀ l : List (String × Conn), ((l.map Prod.snd).Nodup) → (u, c) ∈ l →
      ((l.map (fun e => (e.2, msg))).count (c, msg)) = 1 := by
  intro l
  induction l with
  | nil => intro _ hmem; simp at hmem
  | cons e rest ih =>
    intro hnd hmem
    rw [List.map_cons] at hnd
    rw [List.map_cons, List.count_cons]
    by_cases hc : e.2 = c
    · have hrest : ((rest.map (fun e => (e.2, msg))).count (c, msg)) = 0 := by
        rw [List.count_eq_zero]
        intro hmem2
        obtain ⟨x, hx, hxe⟩ := List.mem_map.mp hmem2
        have : c ∈ rest.map Prod.snd :=
          List.mem_map.mpr ⟨x, hx, by simpa using congrArg Prod.fst hxe⟩
        exact (List.nodup_cons.mp hnd).1 (hc ▸ this)
      simp [hrest, hc]
    · have hmem2 : (u, c) ∈ rest := by
        rcases List.mem_cons.mp hmem with he | hr
        · exact absurd (congrArg Prod.snd he.symm) hc
        · exact hr
      have := ih (List.nodup_cons.mp hnd).2 hmem2
      simp [this, hc]

theorem not_colon_of_isalnum (ch : String) (h : pyIsalnum ch = true) :
    ':' ∉ ch.data := by
  intro hm
  unfold pyIsalnum at h
  have := (List.all_eq_true.mp (Bool.and_elim_right h)) ':' hm
  simp [Char.isAlphanum, Char.isAlpha, Char.isUpper, Char.isLower, Char.isDigit] at this

theorem mem_setAdd_self (l : List (String × Conn)) (e : String × Conn) :
    e ∈ setAdd l e := by
  unfold setAdd
  by_cases hm : e ∈ l
  · simp [hm]
  · simp [hm]

theorem setAdd_of_mem (l : List (String × Conn)) (e : String × Conn) (h : e ∈ l) :
    setAdd l e = l := by
  simp [setAdd, h]

theorem setAdd_of_not_mem (l : List (String × Conn)) (e : String × Conn) (h : e ∉ l) :
    setAdd l e = l ++ [e] := by
  simp [setAdd, h]

theorem pyDiscardFirst_find_none (username : String) (l : List (String × Conn))
    (h : l.find? (fun e => e.1 == username) = none) :
    pyDiscardFirst username l = l := by
  unfold pyDiscardFirst
  rw [h]

theorem pyDiscardFirst_find_some (username : String) (l : List (String × Conn))
    (e : String × Conn) (h : l.find? (fun e => e.1 == username) = some e) :
    pyDiscardFirst username l = l.filter (fun x => !(x == e)) := by
  unfold pyDiscardFirst
  rw [h]

theorem discard_first_eq_filter (username : String) :
    ∀ l : List (String × Conn), l.countP (fun e => e.1 == username) ≤ 1 →
      pyDiscardFirst username l = l.filter (fun x => !(x.1 == username)) := by
  intro l
  induction l with
  | nil => intro _; rfl
  | cons a t ih =>
    intro hcount
    by_cases ha : a.1 = username
    · have hpa : (fun e : String × Conn => e.1 == username) a = true := by simp [ha]
      rw [pyDiscardFirst_find_some username (a :: t) a (List.find?_cons_of_pos t hpa)]
      have ht : t.countP (fun e : String × Conn => e.1 == username) = 0 := by
        rw [List.countP_cons_of_pos (p := fun e : String × Conn => e.1 == username) t hpa] at hcount
        omega
      have hnone : ∀ x ∈ t, ¬(x.1 = username) := by
        intro x hx hxu
        have := List.countP_eq_zero.mp ht x hx
        simp [hxu] at this
      rw [List.filter_cons, List.filter_cons]
      have hfa1 : (!(a == a)) = false := by simp
      have hfa2 : (!(a.1 == username)) = false := by simp [ha]
      rw [hfa1, hfa2]
      simp only [if_false, Bool.false_eq_true]
      have h1 : t.filter (fun x => !(x == a)) = t := by
        rw [List.filter_eq_self]
        intro x hx
        have : ¬(x = a) := fun hxa => hnone x hx (hxa ▸ ha)
        simp [this]
      have h2 : t.filter (fun x : String × Conn => !(x.1 == username)) = t := by
        rw [List.filter_eq_self]
        intro x hx
        simp [hnone x hx]
      rw [h1, h2]
    · have hpa : ¬((fun e : String × Conn => e.1 == username) a = true) := by simp [ha]
      have hc2 : t.countP (fun e : String × Conn => e.1 == username) ≤ 1 := by
        rw [List.countP_cons_of_neg (p := fun e : String × Conn => e.1 == username) t hpa] at hcount
        exact hcount
      have iht := ih hc2
      have hfind : (a :: t).find? (fun e : String × Conn => e.1 == username)
          = t.find? (fun e : String × Conn => e.1 == username) :=
        List.find?_cons_of_neg t hpa
      cases hf : t.find? (fun e : String × Conn => e.1 == username) with
      | none =>
        rw [pyDiscardFirst_find_none username t hf] at iht
        rw [pyDiscardFirst_find_none username (a :: t) (hfind.trans hf)]
        rw [List.filter_cons]
        have hka : (!(a.1 == username)) = true := by simp [ha]
        rw [hka]
        simp only [if_true]
        exact congrArg (a :: ·) iht
      | some e =>
        rw [pyDiscardFirst_find_some username t e hf] at iht
        rw [pyDiscardFirst_find_some username (a :: t) e (hfind.trans hf)]
        have hea : (a == e) = false := by
          have hpe := List.find?_some hf
          rw [beq_eq_false_iff_ne]
          intro hae
          rw [hae] at ha
          rw [beq_iff_eq] at hpe
          exact ha hpe
        rw [List.filter_cons, List.filter_cons]
        have hk1 : (!(a == e)) = true := by rw [hea]; rfl
        have hk2 : (!(a.1 == username)) = true := by simp [ha]
        rw [hk1, hk2]
        simp only [if_true]
        exact congrArg (a :: ·) iht

theorem updMap_same {α : Type} (f : String → α) (k : String) (v : α) :
    updMap f k v k = v := by
  simp [updMap]

theorem updMap_other {α : Type} (f : String → α) (k q : String) (v : α) (h : q ≠ k) :
    updMap f k v q = f q := by
  simp [updMap, h]

theorem doSubscribe_valid (username : String) (ws : Conn) (st : BrokerState)
    (ch : String) (hch : pyIsalnum ch = true) :
    doSubscribe username ws st ch =
      ⟨{ st with
          subscribers := updMap st.subscribers ch (setAdd (st.subscribers ch) (username, ws)) },
        (ws, "SUB-ACK:" ++ ch) ::
          (st.channels ch).map (fun p => (ws, msgFrame ch p.1 p.2)), false⟩ := by
  simp [doSubscribe, hch]

theorem doPublish_subscribed (broken : Conn → Bool) (username : String) (ws : Conn)
    (st : BrokerState) (a ch content : String)
    (hsub : (st.subscribers ch).any (fun e => e.1 == username) = true) :
    doPublish broken username ws st [a, ch, content] =
      ⟨{ channels := updMap st.channels ch (st.channels ch ++ [(username, content)]),
         subscribers := updMap st.subscribers ch
           (fanoutRun broken (msgFrame ch username content) (st.subscribers ch)).2.1 },
        (fanoutRun broken (msgFrame ch username content) (st.subscribers ch)).1,
        (fanoutRun broken (msgFrame ch username content) (st.subscribers ch)).2.2⟩ := by
  simp [doPublish, hsub]

theorem doPublish_not_subscribed (broken : Conn → Bool) (username : String) (ws : Conn)
    (st : BrokerState) (a ch content : String)
    (hsub : (st.subscribers ch).any (fun e => e.1 == username) = false) :
    doPublish broken username ws st [a, ch, content] =
      ⟨st, [(ws, "ERROR:401:Not subscribed to channel")], false⟩ := by
  simp [doPublish, hsub]

theorem doSubscribe_crashed (username : String) (ws : Conn) (st : BrokerState)
    (ch : String) : (doSubscribe username ws st ch).crashed = false := by
  unfold doSubscribe
  by_cases h : pyIsalnum ch <;> simp [h]

theorem doUnsubscribe_crashed (username : String) (ws : Conn) (st : BrokerState)
    (ch : String) : (doUnsubscribe username ws st ch).crashed = false := rfl

theorem pySplit2_shape (s : String) :
    (∃ a, pySplit2 s = [a]) ∨ (∃ a b, pySplit2 s = [a, b]) ∨
      ∃ a b c, pySplit2 s = [a, b, c] := by
  unfold pySplit2
  cases h : splitChar ':' s.data with
  | nil => exact absurd h (splitChar_ne_nil _ _)
  | cons x t =>
    cases t with
    | nil => exact Or.inl ⟨String.mk x, rfl⟩
    | cons y t2 =>
      cases t2 with
      | nil => exact Or.inr (Or.inl ⟨String.mk x, String.mk y, rfl⟩)
      | cons z t3 =>
        exact Or.inr (Or.inr
          ⟨String.mk x, String.mk y, String.mk (joinSep ':' (z :: t3)), rfl⟩)

theorem doPublish_crashed_iff (username : String) (ws : Conn) (st : BrokerState)
    (parts : List String) :
    (doPublish noFail username ws st parts).crashed = true ↔ parts.length ≠ 3 := by
  match parts with
  | [] => simp [doPublish]
  | [a] => simp [doPublish]
  | [a, b] => simp [doPublish]
  | [a, b, c] =>
    cases hany : (st.subscribers b).any (fun e => e.1 == username) with
    | true =>
      rw [doPublish_subscribed noFail username ws st a b c hany, fanoutRun_noFail]
      simp
    | false =>
      rw [doPublish_not_subscribed noFail username ws st a b c hany]
      simp
  | a :: b :: c :: d :: t =>
    have hcr : (doPublish noFail username ws st (a :: b :: c :: d :: t)).crashed
        = true := rfl
    rw [hcr]
    simp [List.length_cons]

theorem pyStartswith_sub_not_pub (raw : String)
    (h : pyStartswith raw "SUBSCRIBE:" = true) :
    pyStartswith raw "PUBLISH:" = false := by
  unfold pyStartswith at h ⊢
  revert h
  cases raw.data with
  | nil =>
    intro h
    exact absurd h (by decide)
  | cons c cs =>
    intro h
    have h2 : ((c == 'S') && startsWithChars cs "UBSCRIBE:".data) = true := h
    rw [Bool.and_eq_true] at h2
    have hc : c = 'S' := by simpa using h2.1
    subst hc
    rfl

/-! The claims. -/

/-- C3: a PUBLISH to channel C from an identity not in C's subscriber set is
answered with an ERROR:401 frame, leaves the whole broker state (in
particular C's history) unchanged, and delivers no MSG frame to anyone. -/
theorem publish_unsubscribed_rejected (broken : Conn → Bool) (username : String)
    (ws : Conn) (st : BrokerState) (ch content : String) (hch : ':' ∉ ch.data)
    (hnot : ∀ e ∈ st.subscribers ch, e.1 ≠ username) :
    (handleFrame broken username ws st ("PUBLISH:" ++ ch ++ ":" ++ content)).state = st ∧
    (handleFrame broken username ws st ("PUBLISH:" ++ ch ++ ":" ++ content)).sent
      = [(ws, "ERROR:401:Not subscribed to channel")] ∧
    (handleFrame broken username ws st ("PUBLISH:" ++ ch ++ ":" ++ content)).crashed
      = false := by
  rw [handleFrame_publish broken username ws st ch content hch]
  have hany : (st.subscribers ch).any (fun e => e.1 == username) = false := by
    rw [List.any_eq_false]
    intro e he
    simpa using hnot e he
  simp [doPublish, hany]

/-- C3 witness: publishing to "c" from a fresh broker (nobody subscribed). -/
theorem publish_unsubscribed_rejected_witness :
    (handleFrame noFail "u" 0 initState ("PUBLISH:" ++ "c" ++ ":" ++ "x")).state
      = initState ∧
    (handleFrame noFail "u" 0 initState ("PUBLISH:" ++ "c" ++ ":" ++ "x")).sent
      = [(0, "ERROR:401:Not subscribed to channel")] ∧
    (handleFrame noFail "u" 0 initState ("PUBLISH:" ++ "c" ++ ":" ++ "x")).crashed
      = false :=
  publish_unsubscribed_rejected noFail "u" 0 initState "c" "x" (by decide)
    (by intro e he; simp [initState] at he)

/-- C4 counterexample: the SUBSCRIBE frame whose channel name "a:b" contains
the non-alphanumeric character ':' is not answered with ERROR:400; the broker
acknowledges SUB-ACK:a and adds the sender to channel "a"'s subscriber set. -/
theorem subscribe_nonalnum_counterexample :
    (handleFrame noFail "u" 0 initState ("SUBSCRIBE:" ++ "a:b")).sent
      = [(0, "SUB-ACK:a")] ∧
    (handleFrame noFail "u" 0 initState ("SUBSCRIBE:" ++ "a:b")).state.subscribers "a"
      = [("u", 0)] := by
  decide

/-- C4 (amended): the parser splits the frame on ':' and validates (and uses)
only the first field of the channel name, so a name containing ':' is
truncated rather than rejected.  For every SUBSCRIBE frame whose channel name
contains no ':' and is empty or contains a non-alphanumeric character, the
broker replies ERROR:400, changes no state, and creates no channel. -/
theorem subscribe_invalid_name_rejected (broken : Conn → Bool) (username : String)
    (ws : Conn) (st : BrokerState) (ch : String) (hch : ':' ∉ ch.data)
    (hbad : pyIsalnum ch = false) :
    (handleFrame broken username ws st ("SUBSCRIBE:" ++ ch)).state = st ∧
    (handleFrame broken username ws st ("SUBSCRIBE:" ++ ch)).sent
      = [(ws, "ERROR:400:Invalid channel name")] ∧
    (handleFrame broken username ws st ("SUBSCRIBE:" ++ ch)).crashed = false := by
  rw [handleFrame_subscribe broken username ws st ch hch]
  simp [doSubscribe, hbad]

/-- C4 witness: subscribing to "a-b" is rejected and changes nothing. -/
theorem subscribe_invalid_name_rejected_witness :
    (handleFrame noFail "u" 0 initState ("SUBSCRIBE:" ++ "a-b")).state = initState ∧
    (handleFrame noFail "u" 0 initState ("SUBSCRIBE:" ++ "a-b")).sent
      = [(0, "ERROR:400:Invalid channel name")] ∧
    (handleFrame noFail "u" 0 initState ("SUBSCRIBE:" ++ "a-b")).crashed = false :=
  subscribe_invalid_name_rejected noFail "u" 0 initState "a-b" (by decide) (by decide)

/-- C8: subscribing twice to a valid channel from the same connection is
idempotent: the second SUBSCRIBE leaves the subscriber set exactly as after
the first, containing exactly one entry for that (identity, connection). -/
theorem subscribe_twice_idempotent (broken : Conn → Bool) (username : String)
    (ws : Conn) (st : BrokerState) (ch : String) (hch : pyIsalnum ch = true)
    (hfresh : (username, ws) ∉ st.subscribers ch) :
    (handleFrame broken username ws
        (handleFrame broken username ws st ("SUBSCRIBE:" ++ ch)).state
        ("SUBSCRIBE:" ++ ch)).state.subscribers ch
      = (handleFrame broken username ws st ("SUBSCRIBE:" ++ ch)).state.subscribers ch ∧
    ((handleFrame broken username ws
        (handleFrame broken username ws st ("SUBSCRIBE:" ++ ch)).state
        ("SUBSCRIBE:" ++ ch)).state.subscribers ch).count (username, ws) = 1 := by
  have hcolon := not_colon_of_isalnum ch hch
  rw [handleFrame_subscribe broken username ws st ch hcolon,
    doSubscribe_valid username ws st ch hch]
  rw [handleFrame_subscribe broken username ws _ ch hcolon,
    doSubscribe_valid username ws _ ch hch]
  simp only [updMap_same]
  rw [setAdd_of_not_mem _ _ hfresh]
  have hmem : (username, ws) ∈ st.subscribers ch ++ [(username, ws)] :=
    List.mem_append_right _ (List.mem_cons_self _ _)
  rw [setAdd_of_mem _ _ hmem]
  refine ⟨rfl, ?_⟩
  rw [List.count_append, List.count_eq_zero.mpr hfresh]
  simp

/-- C8 witness: double subscribe to "reports" on a fresh broker leaves one
entry. -/
theorem subscribe_twice_idempotent_witness :
    ((handleFrame noFail "u" 0
        (handleFrame noFail "u" 0 initState ("SUBSCRIBE:" ++ "reports")).state
        ("SUBSCRIBE:" ++ "reports")).state.subscribers "reports").count ("u", 0) = 1 :=
  (subscribe_twice_idempotent noFail "u" 0 initState "reports" (by decide) (by decide)).2

/-- C10: re-subscribing an already-subscribed connection leaves the
subscriber set unchanged but the broker re-sends SUB-ACK:<channel> followed
by the channel's entire history replay a second time: the second SUBSCRIBE's
output equals the first's, which is SUB-ACK followed by one MSG frame per
historical message. -/
theorem subscribe_twice_replays_history (broken : Conn → Bool) (username : String)
    (ws : Conn) (st : BrokerState) (ch : String) (hch : pyIsalnum ch = true) :
    (handleFrame broken username ws
        (handleFrame broken username ws st ("SUBSCRIBE:" ++ ch)).state
        ("SUBSCRIBE:" ++ ch)).sent
      = (handleFrame broken username ws st ("SUBSCRIBE:" ++ ch)).sent ∧
    (handleFrame broken username ws st ("SUBSCRIBE:" ++ ch)).sent
      = (ws, "SUB-ACK:" ++ ch) ::
          (st.channels ch).map (fun p => (ws, msgFrame ch p.1 p.2)) ∧
    (handleFrame broken username ws
        (handleFrame broken username ws st ("SUBSCRIBE:" ++ ch)).state
        ("SUBSCRIBE:" ++ ch)).state.subscribers ch
      = (handleFrame broken username ws st ("SUBSCRIBE:" ++ ch)).state.subscribers ch := by
  have hcolon := not_colon_of_isalnum ch hch
  rw [handleFrame_subscribe broken username ws st ch hcolon,
    doSubscribe_valid username ws st ch hch]
  rw [handleFrame_subscribe broken username ws _ ch hcolon,
    doSubscribe_valid username ws _ ch hch]
  simp only [updMap_same]
  rw [setAdd_of_mem _ _ (mem_setAdd_self (st.subscribers ch) (username, ws))]
  exact ⟨trivial, trivial, rfl⟩

/-- C10 witness: on a broker whose channel "c" holds one history entry, the
second SUBSCRIBE replays SUB-ACK plus that entry again. -/
theorem subscribe_twice_replays_history_witness :
    (handleFrame noFail "s" 0
        (handleFrame noFail "s" 0 stH ("SUBSCRIBE:" ++ "c")).state
        ("SUBSCRIBE:" ++ "c")).sent
      = [(0, "SUB-ACK:c"), (0, "MSG:c:w:old")] := by
  have h := subscribe_twice_replays_history noFail "s" 0 stH "c" (by decide)
  rw [h.1, h.2.1]
  decide

/-- C1: a message published to channel C by an identity subscribed to C is
appended exactly once to C's history (and no other channel's history
changes), and every connection in C's subscriber set at publish time is
sent exactly one MSG:C:<identity>:<content> frame — indeed, the frames sent
are exactly one per subscriber-set entry. -/
theorem publish_delivers_exactly_once (username : String) (ws : Conn)
    (st : BrokerState) (ch content : String) (hch : ':' ∉ ch.data)
    (hsub : ∃ e ∈ st.subscribers ch, e.1 = username)
    (hnd : ((st.subscribers ch).map Prod.snd).Nodup) :
    (handleFrame noFail username ws st
        ("PUBLISH:" ++ ch ++ ":" ++ content)).state.channels ch
      = st.channels ch ++ [(username, content)] ∧
    (∀ ch2, ch2 ≠ ch →
      (handleFrame noFail username ws st
          ("PUBLISH:" ++ ch ++ ":" ++ content)).state.channels ch2
        = st.channels ch2) ∧
    (∀ e ∈ st.subscribers ch,
      ((handleFrame noFail username ws st
          ("PUBLISH:" ++ ch ++ ":" ++ content)).sent).count
          (e.2, msgFrame ch username content) = 1) ∧
    (handleFrame noFail username ws st ("PUBLISH:" ++ ch ++ ":" ++ content)).sent
      = (st.subscribers ch).map (fun e => (e.2, msgFrame ch username content)) := by
  have hany : (st.subscribers ch).any (fun e => e.1 == username) = true := by
    rw [List.any_eq_true]
    obtain ⟨e, he, heq⟩ := hsub
    exact ⟨e, he, by simp [heq]⟩
  rw [handleFrame_publish noFail username ws st ch content hch,
    doPublish_subscribed noFail username ws st "PUBLISH" ch content hany,
    fanoutRun_noFail]
  refine ⟨updMap_same _ _ _, fun ch2 h2 => updMap_other _ _ _ _ h2, fun e he => ?_, rfl⟩
  have := count_msg_once (msgFrame ch username content) e.1 e.2
    (st.subscribers ch) hnd (by simpa using he)
  simpa using this

/-- C1 witness: "u" publishes "hi" to "c" with subscribers ("u",0), ("v",1):
connection 1 receives exactly one MSG frame, history becomes [("u","hi")]. -/
theorem publish_delivers_exactly_once_witness :
    ((handleFrame noFail "u" 0 stW ("PUBLISH:" ++ "c" ++ ":" ++ "hi")).sent).count
        (1, msgFrame "c" "u" "hi") = 1 ∧
    (handleFrame noFail "u" 0 stW ("PUBLISH:" ++ "c" ++ ":" ++ "hi")).state.channels "c"
      = [("u", "hi")] := by
  have h := publish_delivers_exactly_once "u" 0 stW "c" "hi" (by decide)
    ⟨("u", 0), by decide, rfl⟩ (by decide)
  constructor
  · have := h.2.2.1 ("v", 1) (by decide)
    simpa using this
  · rw [h.1]
    decide

/-- C7: parsing PUBLISH splits the frame into at most three parts on ':',
so a content field containing ':' characters (trailing delimiters included)
is stored in history and delivered in every MSG frame in full, never
truncated. -/
theorem publish_content_preserved (username : String) (ws : Conn)
    (st : BrokerState) (ch content : String) (hch : ':' ∉ ch.data)
    (hsub : ∃ e ∈ st.subscribers ch, e.1 = username) :
    (handleFrame noFail username ws st
        ("PUBLISH:" ++ ch ++ ":" ++ content)).state.channels ch
      = st.channels ch ++ [(username, content)] ∧
    (handleFrame noFail username ws st ("PUBLISH:" ++ ch ++ ":" ++ content)).sent
      = (st.subscribers ch).map (fun e => (e.2, msgFrame ch username content)) := by
  have hany : (st.subscribers ch).any (fun e => e.1 == username) = true := by
    rw [List.any_eq_true]
    obtain ⟨e, he, heq⟩ := hsub
    exact ⟨e, he, by simp [heq]⟩
  rw [handleFrame_publish noFail username ws st ch content hch,
    doPublish_subscribed noFail username ws st "PUBLISH" ch content hany,
    fanoutRun_noFail]
  exact ⟨updMap_same _ _ _, rfl⟩

/-- C7 witness: content "a:b:" with inner and trailing ':' is preserved in
history and in both delivered MSG frames. -/
theorem publish_content_preserved_witness :
    (handleFrame noFail "u" 0 stW
        ("PUBLISH:" ++ "c" ++ ":" ++ "a:b:")).state.channels "c"
      = [("u", "a:b:")] ∧
    (handleFrame noFail "u" 0 stW ("PUBLISH:" ++ "c" ++ ":" ++ "a:b:")).sent
      = [(0, "MSG:c:u:a:b:"), (1, "MSG:c:u:a:b:")] := by
  have h := publish_content_preserved "u" 0 stW "c" "a:b:" (by decide)
    ⟨("u", 0), by decide, rfl⟩
  constructor
  · rw [h.1]
    decide
  · rw [h.2]
    decide

/-- C9: an UNSUBSCRIBE removes the sender's entries for that channel from
the subscriber set (under the reachable-state invariant that an identity
holds at most one entry per channel) and is always acknowledged with
UNSUB-ACK:<channel>, also when the sender was never subscribed. -/
theorem unsubscribe_removes_and_acks (broken : Conn → Bool) (username : String)
    (ws : Conn) (st : BrokerState) (ch : String) (hch : ':' ∉ ch.data)
    (hone : (st.subscribers ch).countP (fun e => e.1 == username) ≤ 1) :
    (handleFrame broken username ws st ("UNSUBSCRIBE:" ++ ch)).state.subscribers ch
      = (st.subscribers ch).filter (fun e => !(e.1 == username)) ∧
    (handleFrame broken username ws st ("UNSUBSCRIBE:" ++ ch)).sent
      = [(ws, "UNSUB-ACK:" ++ ch)] ∧
    (handleFrame broken username ws st ("UNSUBSCRIBE:" ++ ch)).crashed = false := by
  rw [handleFrame_unsubscribe broken username ws st ch hch]
  unfold doUnsubscribe
  refine ⟨?_, rfl, rfl⟩
  simp only [updMap_same]
  exact discard_first_eq_filter username (st.subscribers ch) hone

/-- C5: after the disconnect cleanup for a connection (under the
reachable-state invariant that every subscriber-set entry holding this
websocket carries this connection's username), no subscriber set of any
channel references the websocket any more, and a subsequent publish by any
other connection delivers nothing to it. -/
theorem disconnect_purges_connection (username : String) (ws : Conn)
    (st : BrokerState)
    (hown : ∀ ch, ∀ e ∈ st.subscribers ch, e.2 = ws → e.1 = username) :
    (∀ ch, ∀ e ∈ (deregisterCleanup username st).subscribers ch, e.2 ≠ ws) ∧
    (∀ broken u2 w2 ch m, w2 ≠ ws → ':' ∉ ch.data →
      ∀ p ∈ (handleFrame broken u2 w2 (deregisterCleanup username st)
          ("PUBLISH:" ++ ch ++ ":" ++ m)).sent, p.1 ≠ ws) := by
  have habs : ∀ ch, ∀ e ∈ (deregisterCleanup username st).subscribers ch, e.2 ≠ ws := by
    intro ch e he hws
    unfold deregisterCleanup at he
    simp only [List.mem_filter] at he
    have := hown ch e he.1 hws
    have hk := he.2
    simp [this] at hk
  refine ⟨habs, ?_⟩
  intro broken u2 w2 ch m hw2 hch p hp
  rw [handleFrame_publish broken u2 w2 _ ch m hch] at hp
  cases hany : ((deregisterCleanup username st).subscribers ch).any (fun e => e.1 == u2) with
  | true =>
    rw [doPublish_subscribed broken u2 w2 _ "PUBLISH" ch m hany] at hp
    obtain ⟨e, he, hpe⟩ := fanoutRun_sent_mem broken _ _ p hp
    intro hpws
    exact habs ch e he (hpe ▸ hpws)
  | false =>
    rw [doPublish_not_subscribed broken u2 w2 _ "PUBLISH" ch m hany] at hp
    simp only [List.mem_singleton] at hp
    rw [hp]
    exact hw2

/-- C5 witness: deregistering "u" (ws 0) leaves only ("v",1) on channel "c",
and "v"'s next publish is delivered to connection 1 only. -/
theorem disconnect_purges_connection_witness :
    (deregisterCleanup "u" stW).subscribers "c" = [("v", 1)] ∧
    (handleFrame noFail "v" 1 (deregisterCleanup "u" stW)
        ("PUBLISH:" ++ "c" ++ ":" ++ "m")).sent = [(1, msgFrame "c" "v" "m")] := by
  have h := disconnect_purges_connection "u" 0 stW (by
    intro ch e he hws
    by_cases hc : ch = "c"
    · subst hc
      have he2 : e = ("u", 0) ∨ e = ("v", 1) := by
        simpa [stW] using he
      rcases he2 with he2 | he2
      · rw [he2]
      · rw [he2] at hws
        exact absurd hws (by decide)
    · rw [show stW.subscribers ch = [] by simp [stW, hc]] at he
      exact absurd he (List.not_mem_nil e))
  have hgone : ("u", (0 : Conn)) ∉ (deregisterCleanup "u" stW).subscribers "c" := by
    intro hmem
    exact h.1 "c" ("u", 0) hmem rfl
  exact ⟨by decide, by decide⟩

/-- C2 (code bug): the fan-out loop discards a failed entry from the very
set it is iterating, so CPython raises RuntimeError ("Set changed size
during iteration") at the next iteration step.  With subscribers
("b",1), ("a",2), ("d",3) on "c" and delivery to websocket 1 failing, the
publish by "a": the failed entry is removed as claimed, but no other
subscriber receives the message, the publish aborts with an unhandled error
(crashing the publisher's connection task), and the message is still in
history. -/
theorem fanout_failure_crashes :
    (handleFrame (fun c => c == 1) "a" 2 stW3
        ("PUBLISH:" ++ "c" ++ ":" ++ "hi")).crashed = true ∧
    (handleFrame (fun c => c == 1) "a" 2 stW3
        ("PUBLISH:" ++ "c" ++ ":" ++ "hi")).sent = [] ∧
    (handleFrame (fun c => c == 1) "a" 2 stW3
        ("PUBLISH:" ++ "c" ++ ":" ++ "hi")).state.subscribers "c"
      = [("a", 2), ("d", 3)] ∧
    (handleFrame (fun c => c == 1) "a" 2 stW3
        ("PUBLISH:" ++ "c" ++ ":" ++ "hi")).state.channels "c"
      = [("a", "hi")] := by
  decide

/-- C6 counterexample: the malformed frame "PUBLISH:x" — it starts with the
recognized PUBLISH prefix but does not fully match PUBLISH:<channel>:<content>
(no content field) — raises an unhandled ValueError (unpacking two split
fields into three), terminating the connection task. -/
theorem malformed_publish_crashes_counterexample :
    (handleFrame noFail "u" 0 initState "PUBLISH:x").crashed = true := by
  decide

/-- C6 (amended): with no delivery failures, processing an inbound frame
raises an unhandled error if and only if the frame starts with "PUBLISH:"
and splitting it on ':' (two splits at most) yields fewer than three fields,
i.e. the content field is missing.  Every other frame — including every
frame matching no recognized command prefix, which is silently ignored —
is processed without raising. -/
theorem malformed_frame_no_crash (username : String) (ws : Conn)
    (st : BrokerState) (raw : String) :
    (handleFrame noFail username ws st raw).crashed = true ↔
      (pyStartswith raw "PUBLISH:" = true ∧ (pySplit2 raw).length < 3) := by
  unfold handleFrame
  cases b1 : pyStartswith raw "SUBSCRIBE:" with
  | true =>
    have hpub := pyStartswith_sub_not_pub raw b1
    rw [if_pos rfl, doSubscribe_crashed, hpub]
    simp
  | false =>
    rw [if_neg Bool.false_ne_true]
    cases b2 : pyStartswith raw "PUBLISH:" with
    | true =>
      rw [if_pos rfl, doPublish_crashed_iff]
      constructor
      · intro hne
        refine ⟨rfl, ?_⟩
        rcases pySplit2_shape raw with ⟨a, ha⟩ | ⟨a, b, hab⟩ | ⟨a, b, c, habc⟩
        · rw [ha]
          simp
        · rw [hab]
          simp
        · rw [habc] at hne
          simp at hne
      · rintro ⟨_, hlt⟩
        intro h3
        omega
    | false =>
      rw [if_neg Bool.false_ne_true]
      cases b3 : pyStartswith raw "UNSUBSCRIBE:" with
      | true =>
        rw [if_pos rfl, doUnsubscribe_crashed]
        simp
      | false =>
        rw [if_neg Bool.false_ne_true]
        simp

/-- C6 witness: the unrecognized frame "HELLO" is silently ignored without
raising, and so is the valid frame SUBSCRIBE:ok. -/
theorem malformed_frame_no_crash_witness :
    ((handleFrame noFail "u" 0 initState "HELLO").crashed = true ↔
      (pyStartswith "HELLO" "PUBLISH:" = true ∧ (pySplit2 "HELLO").length < 3)) ∧
    (handleFrame noFail "u" 0 initState "HELLO").crashed = false ∧
    (handleFrame noFail "u" 0 initState "HELLO").sent = [] :=
  ⟨malformed_frame_no_crash "u" 0 initState "HELLO", by decide, by decide⟩

/-- C9 witness: unsubscribing from a channel never subscribed to is
acknowledged without error and leaves the state empty. -/
theorem unsubscribe_removes_and_acks_witness :
    (handleFrame noFail "u" 0 initState
        ("UNSUBSCRIBE:" ++ "nochan")).state.subscribers "nochan" = [] ∧
    (handleFrame noFail "u" 0 initState ("UNSUBSCRIBE:" ++ "nochan")).sent
      = [(0, "UNSUB-ACK:nochan")] ∧
    (handleFrame noFail "u" 0 initState ("UNSUBSCRIBE:" ++ "nochan")).crashed
      = false := by
  have h := unsubscribe_removes_and_acks noFail "u" 0 initState "nochan"
    (by decide) (by decide)
  refine ⟨?_, ?_, h.2.2⟩
  · rw [h.1]
    decide
  · rw [h.2.1]
    decide

end Broker
